import Mathlib

/-!
Verification of the validation-and-calculation core of the
`utopictown/exponentrade` trading position-size calculator
(`src/components/TradingCalculator.tsx`).

The component stores the form fields as strings and converts them with
`parseFloat` at the top of `validateInputs` and `calculateResults`.  We embed
the numeric domain as `JsVal`: the result of `parseFloat` is `NaN`, an
infinity, or a finite value, which we model as an exact rational (ideal real
arithmetic; the claims are stated over the ideal formulas, not over binary
floating point representation error).  Comparisons and arithmetic on `JsVal`
follow the JavaScript rules for the special values: every comparison with
`NaN` is false, `Infinity - finite = Infinity`, `Infinity * 0 = NaN`,
`positive / 0 = Infinity`, `0 / 0 = NaN`, and so on.

The source file concatenates two near-identical variants of the component;
both variants' `validateInputs` / `calculateResults` are embedded separately
(`validateInputs` / `computeResults` / `calculateResults` for the first,
`validateInputs2` / `computeResults2` / `calculateResults2` for the second).
-/

/-- A JavaScript numeric value as produced by `parseFloat`: `NaN`, an
infinity, or a finite number (modelled as an exact rational). -/
inductive JsVal where
  | nan : JsVal
  | inf : JsVal
  | neginf : JsVal
  | fin : ℚ → JsVal
deriving DecidableEq

/-- JavaScript `isNaN`. -/
def jsIsNaN : JsVal → Bool
  | .nan => true
  | _ => false

/-- JavaScript `<=` on numbers: false whenever either side is `NaN`. -/
def jle : JsVal → JsVal → Bool
  | .nan, _ => false
  | _, .nan => false
  | .neginf, _ => true
  | _, .inf => true
  | .inf, _ => false
  | _, .neginf => false
  | .fin a, .fin b => decide (a ≤ b)

/-- JavaScript `<` on numbers: false whenever either side is `NaN`. -/
def jlt : JsVal → JsVal → Bool
  | .nan, _ => false
  | _, .nan => false
  | .inf, _ => false
  | _, .neginf => false
  | .neginf, _ => true
  | _, .inf => true
  | .fin a, .fin b => decide (a < b)

/-- JavaScript `>=`. -/
def jge (a b : JsVal) : Bool := jle b a

/-- JavaScript `>`. -/
def jgt (a b : JsVal) : Bool := jlt b a

/-- JavaScript subtraction, with the IEEE special-value rules. -/
def jsub : JsVal → JsVal → JsVal
  | .nan, _ => .nan
  | _, .nan => .nan
  | .inf, .inf => .nan
  | .inf, _ => .inf
  | .neginf, .neginf => .nan
  | .neginf, _ => .neginf
  | .fin _, .inf => .neginf
  | .fin _, .neginf => .inf
  | .fin a, .fin b => .fin (a - b)

/-- JavaScript `Math.abs`, with the IEEE special-value rules. -/
def jabs : JsVal → JsVal
  | .nan => .nan
  | .inf => .inf
  | .neginf => .inf
  | .fin a => .fin |a|

/-- JavaScript multiplication, with the IEEE special-value rules
(`Infinity * 0 = NaN`). -/
def jmul : JsVal → JsVal → JsVal
  | .nan, _ => .nan
  | _, .nan => .nan
  | .inf, .inf => .inf
  | .inf, .neginf => .neginf
  | .neginf, .inf => .neginf
  | .neginf, .neginf => .inf
  | .inf, .fin b => if 0 < b then .inf else if b < 0 then .neginf else .nan
  | .fin a, .inf => if 0 < a then .inf else if a < 0 then .neginf else .nan
  | .neginf, .fin b => if 0 < b then .neginf else if b < 0 then .inf else .nan
  | .fin a, .neginf => if 0 < a then .neginf else if a < 0 then .inf else .nan
  | .fin a, .fin b => .fin (a * b)

/-- JavaScript division, with the IEEE special-value rules
(`positive / 0 = Infinity`, `0 / 0 = NaN`, `finite / Infinity = 0`). -/
def jdiv : JsVal → JsVal → JsVal
  | .nan, _ => .nan
  | _, .nan => .nan
  | .inf, .inf => .nan
  | .inf, .neginf => .nan
  | .neginf, .inf => .nan
  | .neginf, .neginf => .nan
  | .inf, .fin b => if b < 0 then .neginf else .inf
  | .neginf, .fin b => if b < 0 then .inf else .neginf
  | .fin _, .inf => .fin 0
  | .fin _, .neginf => .fin 0
  | .fin a, .fin b =>
      if b = 0 then (if 0 < a then .inf else if a < 0 then .neginf else .nan)
      else .fin (a / b)

/-- Rounding to 2 decimal places as `toFixed(2)` specifies: the integer `n`
minimising `|n / 100 - x|`, ties resolved to the larger `n` (round half
toward positive infinity). -/
def round2 (q : ℚ) : ℚ := (⌊q * 100 + 1 / 2⌋ : ℚ) / 100

/-- `Number(x.toFixed(2))`: `NaN` and the infinities survive the round trip
through the string form unchanged; finite values are rounded. -/
def jround2 : JsVal → JsVal
  | .nan => .nan
  | .inf => .inf
  | .neginf => .neginf
  | .fin q => .fin (round2 q)

/-- The `positionType` union type `'long' | 'short'`. -/
inductive PositionType where
  | long : PositionType
  | short : PositionType
deriving DecidableEq

/-- The component's input fields after `parseFloat`: the four numeric form
fields plus the position type.  (The code has no risk mode and no fixed
risk-amount field; `riskTolerance` is a fraction.) -/
structure Inputs where
  positionType : PositionType
  entryPrice : JsVal
  stopLoss : JsVal
  initialFunds : JsVal
  riskTolerance : JsVal
deriving DecidableEq

/-- The `ValidationErrors` record: an optional message per field; `none`
means the key is absent from the error object. -/
structure ValidationErrors where
  entryPrice : Option String
  stopLoss : Option String
  initialFunds : Option String
  riskTolerance : Option String
deriving DecidableEq

/-- `validateInputs` of the first variant (lines 77-106 of
`TradingCalculator.tsx`), transcribed clause by clause. -/
def validateInputs (i : Inputs) : ValidationErrors :=
  let entryPriceNum := i.entryPrice
  let stopLossNum := i.stopLoss
  let initialFundsNum := i.initialFunds
  let riskToleranceNum := i.riskTolerance
  { entryPrice :=
      if jsIsNaN entryPriceNum || jle entryPriceNum (.fin 0) then
        some "Entry price must be a positive number"
      else none
    stopLoss :=
      if jsIsNaN stopLossNum || jle stopLossNum (.fin 0) then
        some "Stop loss must be a positive number"
      else if i.positionType == .long && jge stopLossNum entryPriceNum then
        some "Stop loss must be less than entry price for long positions"
      else if i.positionType == .short && jle stopLossNum entryPriceNum then
        some "Stop loss must be greater than entry price for short positions"
      else none
    initialFunds :=
      if jsIsNaN initialFundsNum || jle initialFundsNum (.fin 0) then
        some "Initial funds must be a positive number"
      else none
    riskTolerance :=
      if jsIsNaN riskToleranceNum || jle riskToleranceNum (.fin 0)
          || jge riskToleranceNum (.fin 1) then
        some "Risk tolerance must be between 0 and 1"
      else none }

/-- `Object.keys(newErrors).length === 0`: no field carries an error. -/
def hasNoErrors (v : ValidationErrors) : Bool :=
  v.entryPrice.isNone && v.stopLoss.isNone && v.initialFunds.isNone
    && v.riskTolerance.isNone

/-- The `CalculationResults` record. -/
structure CalculationResults where
  positionSize : JsVal
  positionValue : JsVal
  leverage : JsVal
  riskAmount : JsVal
deriving DecidableEq

/-- The divisor `lossPerUnit` computed at lines 117-119:
`Math.abs(positionType === 'long' ? entry - stop : stop - entry)`. -/
def lossPerUnit (i : Inputs) : JsVal :=
  jabs (if i.positionType == .long then jsub i.entryPrice i.stopLoss
        else jsub i.stopLoss i.entryPrice)

/-- The arithmetic body of `calculateResults` (lines 111-128 of the first
variant): the raw computation performed once validation has passed. -/
def computeResults (i : Inputs) : CalculationResults :=
  let riskAmount := jmul i.initialFunds i.riskTolerance
  let positionSize := jdiv riskAmount (lossPerUnit i)
  let positionValue := jmul positionSize i.entryPrice
  let leverage := jdiv positionValue i.initialFunds
  { positionSize := jround2 positionSize
    positionValue := jround2 positionValue
    leverage := jround2 leverage
    riskAmount := jround2 riskAmount }

/-- `calculateResults` (lines 108-130 of the first variant) as a transformer
of the `results` state: `if (!validateInputs()) return;` leaves the
previously stored results untouched; otherwise `setResults` stores the
freshly computed record. -/
def calculateResults (i : Inputs) (prev : Option CalculationResults) :
    Option CalculationResults :=
  if hasNoErrors (validateInputs i) then some (computeResults i) else prev

/-- `validateInputs` of the second variant (lines 271-300 of
`TradingCalculator.tsx`), transcribed clause by clause. -/
def validateInputs2 (i : Inputs) : ValidationErrors :=
  let entryPriceNum := i.entryPrice
  let stopLossNum := i.stopLoss
  let initialFundsNum := i.initialFunds
  let riskToleranceNum := i.riskTolerance
  { entryPrice :=
      if jsIsNaN entryPriceNum || jle entryPriceNum (.fin 0) then
        some "Entry price must be a positive number"
      else none
    stopLoss :=
      if jsIsNaN stopLossNum || jle stopLossNum (.fin 0) then
        some "Stop loss must be a positive number"
      else if i.positionType == .long && jge stopLossNum entryPriceNum then
        some "Stop loss must be less than entry price for long positions"
      else if i.positionType == .short && jle stopLossNum entryPriceNum then
        some "Stop loss must be greater than entry price for short positions"
      else none
    initialFunds :=
      if jsIsNaN initialFundsNum || jle initialFundsNum (.fin 0) then
        some "Initial funds must be a positive number"
      else none
    riskTolerance :=
      if jsIsNaN riskToleranceNum || jle riskToleranceNum (.fin 0)
          || jge riskToleranceNum (.fin 1) then
        some "Risk tolerance must be between 0 and 1"
      else none }

/-- The arithmetic body of the second variant's `calculateResults`
(lines 305-323). -/
def computeResults2 (i : Inputs) : CalculationResults :=
  let riskAmount := jmul i.initialFunds i.riskTolerance
  let lossPerUnit2 := jabs (if i.positionType == .long
    then jsub i.entryPrice i.stopLoss else jsub i.stopLoss i.entryPrice)
  let positionSize := jdiv riskAmount lossPerUnit2
  let positionValue := jmul positionSize i.entryPrice
  let leverage := jdiv positionValue i.initialFunds
  { positionSize := jround2 positionSize
    positionValue := jround2 positionValue
    leverage := jround2 leverage
    riskAmount := jround2 riskAmount }

/-- The second variant's `calculateResults` (lines 302-324) as a transformer
of its `results` state. -/
def calculateResults2 (i : Inputs) (prev : Option CalculationResults) :
    Option CalculationResults :=
  if hasNoErrors (validateInputs2 i) then some (computeResults2 i) else prev

/-- Modelled from the spec: the repository's fixed-risk-amount validator
variant is not present under `src/` (the spec records near-duplicate
variants with an optional fixed risk-amount mode; only the two
fraction-mode variants are in `src/`).  Inputs of that variant: the shared
fields plus a `riskAmount` field. -/
structure FixedInputs where
  positionType : PositionType
  entryPrice : JsVal
  stopLoss : JsVal
  initialFunds : JsVal
  riskAmount : JsVal
deriving DecidableEq

/-- Error record of the fixed-risk-amount variant: the risk error attaches
to the `riskAmount` field. -/
structure FixedValidationErrors where
  entryPrice : Option String
  stopLoss : Option String
  initialFunds : Option String
  riskAmount : Option String
deriving DecidableEq

/-- Modelled from the spec: validator of the fixed-risk-amount variant.
Rules 1-3 are the ones shared with the in-repo variants; rule 4 per the
spec reads, in fixed mode `riskAmount` is invalid unless it parses to a
number greater than zero, and additionally invalid if it exceeds
`initialFunds` (the exceeds check needs a numeric `initialFunds` to fire,
while the positivity check is independent of the other fields). -/
def validateInputsFixed (i : FixedInputs) : FixedValidationErrors :=
  { entryPrice :=
      if jsIsNaN i.entryPrice || jle i.entryPrice (.fin 0) then
        some "Entry price must be a positive number"
      else none
    stopLoss :=
      if jsIsNaN i.stopLoss || jle i.stopLoss (.fin 0) then
        some "Stop loss must be a positive number"
      else if i.positionType == .long && jge i.stopLoss i.entryPrice then
        some "Stop loss must be less than entry price for long positions"
      else if i.positionType == .short && jle i.stopLoss i.entryPrice then
        some "Stop loss must be greater than entry price for short positions"
      else none
    initialFunds :=
      if jsIsNaN i.initialFunds || jle i.initialFunds (.fin 0) then
        some "Initial funds must be a positive number"
      else none
    riskAmount :=
      if jsIsNaN i.riskAmount || jle i.riskAmount (.fin 0) then
        some "Risk amount must be a positive number"
      else if jgt i.riskAmount i.initialFunds then
        some "Risk amount cannot exceed initial funds"
      else none }

/-! Concrete input records used by the counterexamples and witnesses. -/

/-- Long position, entry 100, stop 90, funds 1000, risk tolerance 0.02. -/
def iC1 : Inputs :=
  { positionType := .long, entryPrice := .fin 100, stopLoss := .fin 90
    initialFunds := .fin 1000, riskTolerance := .fin (1 / 50) }

/-- Otherwise-valid inputs with risk tolerance 100. -/
def iC2 : Inputs :=
  { positionType := .long, entryPrice := .fin 100, stopLoss := .fin 90
    initialFunds := .fin 1000, riskTolerance := .fin 100 }

/-- The spec's worked example verbatim: risk tolerance 2. -/
def iC3 : Inputs :=
  { positionType := .long, entryPrice := .fin 100, stopLoss := .fin 90
    initialFunds := .fin 1000, riskTolerance := .fin 2 }

/-- Entry price parsing to positive Infinity, all other fields valid. -/
def iC4 : Inputs :=
  { positionType := .long, entryPrice := .inf, stopLoss := .fin 90
    initialFunds := .fin 1000, riskTolerance := .fin (1 / 50) }

/-- Invalid (negative) entry price with a positive stop loss. -/
def iC5 : Inputs :=
  { positionType := .long, entryPrice := .fin (-5), stopLoss := .fin 3
    initialFunds := .fin 1000, riskTolerance := .fin (1 / 50) }

/-- Entry price equal to stop loss: lossPerUnit is zero. -/
def iC8 : Inputs :=
  { positionType := .long, entryPrice := .fin 100, stopLoss := .fin 100
    initialFunds := .fin 1000, riskTolerance := .fin (1 / 2) }

/-- Fixed-mode inputs whose risk amount exceeds the initial funds. -/
def iC9 : FixedInputs :=
  { positionType := .long, entryPrice := .fin 100, stopLoss := .fin 90
    initialFunds := .fin 1000, riskAmount := .fin 2000 }

/-! Helper lemmas shared by the claim theorems. -/

lemma jabs_jsub_comm (a b : JsVal) : jabs (jsub a b) = jabs (jsub b a) := by
  cases a <;> cases b <;> simp [jsub, jabs, abs_sub_comm]

lemma lossPerUnit_eq_abs (i : Inputs) :
    lossPerUnit i = jabs (jsub i.entryPrice i.stopLoss) := by
  unfold lossPerUnit
  cases hp : (i.positionType == PositionType.long) <;>
    simp [hp, jabs_jsub_comm i.stopLoss i.entryPrice]

/-- Entry price parsing to NaN with a positive stop loss. -/
def iC5n : Inputs :=
  { positionType := .long, entryPrice := .nan, stopLoss := .fin 3
    initialFunds := .fin 1000, riskTolerance := .fin (1 / 50) }

/-- Claim C1, counterexample: the input long/100/90/1000 with risk tolerance
0.02 passes validation, and the code computes riskAmount = 20 =
initialFunds * riskTolerance, which differs from the claimed
initialFunds * (riskTolerance / 100) = 0.2. -/
theorem C1_counterexample :
    hasNoErrors (validateInputs iC1) = true ∧
      (computeResults iC1).riskAmount = JsVal.fin 20 ∧
      JsVal.fin 20 ≠
        jround2 (jmul iC1.initialFunds (jdiv iC1.riskTolerance (JsVal.fin 100))) := by
  refine ⟨?_, ?_, ?_⟩
  · norm_num [hasNoErrors, validateInputs, iC1, jsIsNaN, jle, jge]
    exact fun h => nomatch h
  · norm_num [computeResults, iC1, lossPerUnit, jsub, jabs, jmul, jdiv, jround2, round2]
  · norm_num [iC1, jmul, jdiv, jround2, round2]

/-- Claim C1 (amended): for every input record that passes validation, the
calculation returns riskAmount = round2(initialFunds * riskTolerance) with
riskTolerance applied directly as a fraction (no division by 100 and no risk
mode), positionSize = round2(riskAmount / |entryPrice - stopLoss|),
positionValue = round2(positionSize * entryPrice) and
leverage = round2(positionValue / initialFunds), where the unrounded
intermediate values feed each later formula and the divisor is the
sign-agnostic distance |entryPrice - stopLoss|. -/
theorem C1_formulas_with_fraction_riskTolerance (i : Inputs)
    (h : hasNoErrors (validateInputs i) = true) :
    computeResults i =
      { riskAmount := jround2 (jmul i.initialFunds i.riskTolerance)
        positionSize := jround2 (jdiv (jmul i.initialFunds i.riskTolerance)
          (jabs (jsub i.entryPrice i.stopLoss)))
        positionValue := jround2 (jmul (jdiv (jmul i.initialFunds i.riskTolerance)
          (jabs (jsub i.entryPrice i.stopLoss))) i.entryPrice)
        leverage := jround2 (jdiv (jmul (jdiv (jmul i.initialFunds i.riskTolerance)
          (jabs (jsub i.entryPrice i.stopLoss))) i.entryPrice) i.initialFunds) } := by
  unfold computeResults
  rw [lossPerUnit_eq_abs]

/-- Claim C1, witness: the amended formula theorem applied at the concrete
validated input long/100/90/1000/0.02. -/
theorem C1_witness :
    hasNoErrors (validateInputs iC1) = true ∧
      computeResults iC1 =
        { riskAmount := jround2 (jmul iC1.initialFunds iC1.riskTolerance)
          positionSize := jround2 (jdiv (jmul iC1.initialFunds iC1.riskTolerance)
            (jabs (jsub iC1.entryPrice iC1.stopLoss)))
          positionValue := jround2 (jmul (jdiv (jmul iC1.initialFunds iC1.riskTolerance)
            (jabs (jsub iC1.entryPrice iC1.stopLoss))) iC1.entryPrice)
          leverage := jround2 (jdiv (jmul (jdiv (jmul iC1.initialFunds iC1.riskTolerance)
            (jabs (jsub iC1.entryPrice iC1.stopLoss))) iC1.entryPrice) iC1.initialFunds) } := by
  have hv : hasNoErrors (validateInputs iC1) = true := by
    norm_num [hasNoErrors, validateInputs, iC1, jsIsNaN, jle, jge]
    exact fun h => nomatch h
  exact ⟨hv, C1_formulas_with_fraction_riskTolerance iC1 hv⟩

/-- Claim C2, counterexample: with all other fields valid, a risk tolerance
of 100 is rejected by the code (the bound is riskTolerance < 1, not <= 100),
contradicting the claim that 100 is accepted. -/
theorem C2_counterexample :
    iC2.riskTolerance = JsVal.fin 100 ∧
      (validateInputs iC2).riskTolerance.isSome = true := by
  refine ⟨rfl, ?_⟩
  norm_num [validateInputs, iC2, jsIsNaN, jle, jge]

/-- Claim C2 (amended): the riskTolerance error is absent if and only if the
field parses to a finite number in the open interval (0, 1); in particular
0, 100 and 101 are all rejected. -/
theorem C2_riskTolerance_error_iff (i : Inputs) :
    (validateInputs i).riskTolerance = none ↔
      ∃ q : ℚ, i.riskTolerance = JsVal.fin q ∧ 0 < q ∧ q < 1 := by
  cases h : i.riskTolerance with
  | nan => simp [validateInputs, jsIsNaN, h]
  | inf => simp [validateInputs, jsIsNaN, jle, jge, h]
  | neginf => simp [validateInputs, jsIsNaN, jle, jge, h]
  | fin q => simp [validateInputs, jsIsNaN, jle, jge, h]

/-- Claim C3, counterexample: the claimed input has riskTolerance = 2, which
the code rejects (it requires a fraction strictly below 1), so validation
does not succeed and no results are computed. -/
theorem C3_counterexample :
    iC3.riskTolerance = JsVal.fin 2 ∧
      (validateInputs iC3).riskTolerance.isSome = true ∧
      hasNoErrors (validateInputs iC3) = false := by
  refine ⟨rfl, ?_, ?_⟩
  · norm_num [validateInputs, iC3, jsIsNaN, jle, jge]
  · norm_num [hasNoErrors, validateInputs, iC3, jsIsNaN, jle, jge]

/-- Claim C3 (amended): with the 2 percent expressed as the fraction 0.02
that the code expects, the input long/100/90/1000/0.02 passes validation,
lossPerUnit is 10, and the results are riskAmount = 20, positionSize = 2,
positionValue = 200 and leverage = 0.20. -/
theorem C3_adjusted_worked_example :
    hasNoErrors (validateInputs iC1) = true ∧
      lossPerUnit iC1 = JsVal.fin 10 ∧
      computeResults iC1 =
        { positionSize := .fin 2, positionValue := .fin 200
          leverage := .fin (1 / 5), riskAmount := .fin 20 } := by
  refine ⟨?_, ?_, ?_⟩
  · norm_num [hasNoErrors, validateInputs, iC1, jsIsNaN, jle, jge]
    exact fun h => nomatch h
  · norm_num [lossPerUnit, iC1, jsub, jabs]
  · norm_num [computeResults, iC1, lossPerUnit, jsub, jabs, jmul, jdiv, jround2, round2]

/-- Claim C4, counterexample: an entry price parsing to positive Infinity is
accepted by the code (the check is only isNaN or nonpositive), contradicting
the claim that only finite positive values avoid the error. -/
theorem C4_counterexample :
    iC4.entryPrice = JsVal.inf ∧ (validateInputs iC4).entryPrice = none := by
  refine ⟨rfl, ?_⟩
  norm_num [validateInputs, iC4, jsIsNaN, jle]

/-- Claim C4 (amended): the entryPrice error is absent if and only if the
field parses to positive Infinity or to a finite number strictly greater
than 0; the code performs no finiteness check. -/
theorem C4_entryPrice_error_iff (i : Inputs) :
    (validateInputs i).entryPrice = none ↔
      i.entryPrice = JsVal.inf ∨ ∃ q : ℚ, i.entryPrice = JsVal.fin q ∧ 0 < q := by
  cases h : i.entryPrice <;> simp [validateInputs, jsIsNaN, jle, h]

/-- Claim C5, counterexample: with a long position, entry price -5 (invalid)
and stop loss 3 (a positive finite number), the code still evaluates the
relational comparison 3 >= -5 and reports a stopLoss error, contradicting
the claim that no stopLoss error is reported when entryPrice is invalid. -/
theorem C5_counterexample :
    (validateInputs iC5).entryPrice.isSome = true ∧
      iC5.stopLoss = JsVal.fin 3 ∧
      (validateInputs iC5).stopLoss.isSome = true := by
  refine ⟨?_, rfl, ?_⟩
  · norm_num [validateInputs, iC5, jsIsNaN, jle, jge]
  · norm_num [validateInputs, iC5, jsIsNaN, jle, jge]

/-- Claim C5 (amended): the relational long/short comparison is evaluated
regardless of entryPrice validity; it merely returns false against NaN. So
when stopLoss parses to a positive finite number and entryPrice parses to
NaN, no stopLoss error is reported, but an entryPrice that parses to a
nonpositive number can still trigger the relational stopLoss error. -/
theorem C5_nan_entryPrice_no_stopLoss_error (i : Inputs)
    (he : i.entryPrice = JsVal.nan)
    (hs : ∃ q : ℚ, i.stopLoss = JsVal.fin q ∧ 0 < q) :
    (validateInputs i).stopLoss = none := by
  obtain ⟨q, hq, hpos⟩ := hs
  cases hp : i.positionType <;>
    simp [validateInputs, jsIsNaN, jle, jge, he, hq, hp,
      show ¬ q ≤ 0 from not_le.mpr hpos]

/-- Claim C5, witness: the amended theorem applied at a concrete input with
NaN entry price and stop loss 3. -/
theorem C5_witness :
    iC5n.entryPrice = JsVal.nan ∧ (validateInputs iC5n).stopLoss = none :=
  ⟨rfl, C5_nan_entryPrice_no_stopLoss_error iC5n rfl ⟨3, rfl, by norm_num⟩⟩

/-- Claim C6: when validation reports any error, calculateResults returns
before computing, so the previously stored results (stale or not) are kept
unchanged. -/
theorem C6_invalid_input_keeps_previous_results (i : Inputs)
    (prev : Option CalculationResults)
    (h : hasNoErrors (validateInputs i) = false) :
    calculateResults i prev = prev := by
  simp [calculateResults, h]

/-- Claim C6, witness: the theorem applied at the invalid input with risk
tolerance 2, with the stale results of an earlier valid calculation. -/
theorem C6_witness :
    hasNoErrors (validateInputs iC3) = false ∧
      calculateResults iC3 (some (computeResults iC1)) =
        some (computeResults iC1) := by
  have hv : hasNoErrors (validateInputs iC3) = false := by
    norm_num [hasNoErrors, validateInputs, iC3, jsIsNaN, jle, jge]
  exact ⟨hv, C6_invalid_input_keeps_previous_results iC3 (some (computeResults iC1)) hv⟩

/-- Claim C7: every input record that passes validation has a strictly
positive lossPerUnit, so the division riskAmount / lossPerUnit is never a
division by zero; the long/short inequality checks make
entryPrice = stopLoss unreachable under the validated precondition. -/
theorem C7_validated_lossPerUnit_positive (i : Inputs)
    (h : hasNoErrors (validateInputs i) = true) :
    jlt (JsVal.fin 0) (lossPerUnit i) = true := by
  obtain ⟨pt, e, s, f, t⟩ := i
  cases pt <;> cases e <;> cases s <;>
    simp_all [validateInputs, hasNoErrors, jsIsNaN, jle, jge, jlt,
      lossPerUnit, jsub, jabs] <;>
    obtain ⟨⟨⟨hE, hS⟩, -⟩, -⟩ := h <;>
    intro hc <;> rw [sub_eq_zero] at hc <;>
    rw [if_neg (by linarith), if_pos (by linarith)] at hS <;>
    exact Option.some_ne_none _ hS

/-- Claim C7, witness: the theorem applied at the concrete validated input
long/100/90/1000/0.02, whose lossPerUnit is 10. -/
theorem C7_witness :
    hasNoErrors (validateInputs iC1) = true ∧
      jlt (JsVal.fin 0) (lossPerUnit iC1) = true := by
  have hv : hasNoErrors (validateInputs iC1) = true := by
    norm_num [hasNoErrors, validateInputs, iC1, jsIsNaN, jle, jge]
    exact fun h => nomatch h
  exact ⟨hv, C7_validated_lossPerUnit_positive iC1 hv⟩

/-- Claim C8, counterexample: invoked with entry price equal to stop loss
(lossPerUnit = 0), the raw calculation does not signal any error; it divides
by zero and stores Infinity as the position size. -/
theorem C8_counterexample :
    lossPerUnit iC8 = JsVal.fin 0 ∧
      (computeResults iC8).positionSize = JsVal.inf := by
  refine ⟨?_, ?_⟩
  · norm_num [lossPerUnit, iC8, jsub, jabs]
  · norm_num [computeResults, iC8, lossPerUnit, jsub, jabs, jmul, jdiv, jround2]

/-- Claim C8 (amended): the code contains no defensive DivisionByZero
check: whenever the raw calculation runs with lossPerUnit = 0 and a positive
risk amount, the division propagates Infinity into positionSize. (Through
the guarded calculateResults this state is unreachable, since validation
rejects entryPrice = stopLoss.) -/
theorem C8_zero_lossPerUnit_propagates_infinity (i : Inputs)
    (h0 : lossPerUnit i = JsVal.fin 0)
    (hpos : jlt (JsVal.fin 0) (jmul i.initialFunds i.riskTolerance) = true) :
    (computeResults i).positionSize = JsVal.inf := by
  cases hm : jmul i.initialFunds i.riskTolerance with
  | nan => rw [hm] at hpos; simp [jlt] at hpos
  | neginf => rw [hm] at hpos; simp [jlt] at hpos
  | inf => simp [computeResults, h0, hm, jdiv, jround2]
  | fin r =>
    rw [hm] at hpos
    simp only [jlt, decide_eq_true_eq] at hpos
    simp [computeResults, h0, hm, jdiv, jround2, hpos, ne_of_gt hpos]

/-- Claim C8, witness: the amended theorem applied at the concrete input
with entry price and stop loss both 100, funds 1000 and risk tolerance 0.5. -/
theorem C8_witness :
    lossPerUnit iC8 = JsVal.fin 0 ∧
      jlt (JsVal.fin 0) (jmul iC8.initialFunds iC8.riskTolerance) = true ∧
      (computeResults iC8).positionSize = JsVal.inf := by
  have h0 : lossPerUnit iC8 = JsVal.fin 0 := by
    norm_num [lossPerUnit, iC8, jsub, jabs]
  have hpos : jlt (JsVal.fin 0) (jmul iC8.initialFunds iC8.riskTolerance) = true := by
    norm_num [iC8, jmul, jlt]
  exact ⟨h0, hpos, C8_zero_lossPerUnit_propagates_infinity iC8 h0 hpos⟩

/-- Claim C9: in the fixed-risk-amount variant (modelled from the spec, see
validateInputsFixed), any inputs whose risk amount exceeds the initial funds
receive a riskAmount validation error, regardless of the other fields. -/
theorem C9_fixed_riskAmount_exceeds_funds_error (i : FixedInputs)
    (h : jgt i.riskAmount i.initialFunds = true) :
    (validateInputsFixed i).riskAmount.isSome = true := by
  simp only [validateInputsFixed]
  split
  · rfl
  · simp [h]

/-- Claim C9, witness: the theorem applied at a concrete fixed-mode input
with risk amount 2000 exceeding the initial funds 1000. -/
theorem C9_witness :
    jgt iC9.riskAmount iC9.initialFunds = true ∧
      (validateInputsFixed iC9).riskAmount.isSome = true := by
  have hv : jgt iC9.riskAmount iC9.initialFunds = true := by
    norm_num [iC9, jgt, jlt]
  exact ⟨hv, C9_fixed_riskAmount_exceeds_funds_error iC9 hv⟩

/-- Claim C10: the two TradingCalculator variants concatenated in the source
file have extensionally equal core logic: for every inputs record the two
validators return the same error map, the two raw calculations return the
same results, and the two guarded calculate actions transform the stored
results identically. -/
theorem C10_variants_extensionally_equal (i : Inputs)
    (prev : Option CalculationResults) :
    validateInputs2 i = validateInputs i ∧
      computeResults2 i = computeResults i ∧
      calculateResults2 i prev = calculateResults i prev :=
  ⟨rfl, rfl, rfl⟩
